import Mathlib

/-!
Shallow embedding of the qtrack rotating-credential core: the `sessions`
table operations (`src/models/Session.js`), the attendance ledger
(`src/models/Attendance.js` over the schema of `src/config/database.js`),
the service layer (`src/services/SessionService.js`) and the QR rotation
scheduler (`src/services/QRCodeService.js`).

Conventions of the embedding:
* timestamps are integers (milliseconds); ISO-8601 strings of the source
  compare chronologically, so `Int` order is faithful;
* the ambient clock is an explicit `now : Int` argument;
* generated values (UUIDs, `crypto.randomBytes` tokens) are explicit
  arguments (`newId`, `gen`) standing for the value the generator drew;
* SQLite rows are Lean structures, tables are lists of rows;
* JavaScript string truthiness (`null` and `""` are falsy) is `strTruthy`;
* the SQLite boolean `is_active` column is a `Nat` (`0` / `1`), and the
  JavaScript check `!session.is_active` is `is_active == 0`.
-/

namespace QTrack

/-- A row of the `sessions` table.  `tokenSetAt` is a ghost field recording
the clock value at the moment `current_token` / `token_expiry` were last
written; the source does not store it, but the spec's invariant "expiry was
in the future at the moment it was set" is a statement about it. -/
structure SessionRec where
  id : String
  faculty_id : String
  course_name : String
  course_code : String
  sectionName : String
  start_time : Int
  end_time : Option Int
  is_active : Nat
  current_token : Option String
  token_expiry : Option Int
  tokenSetAt : Int
  deriving Repr, DecidableEq

/-- The `sessions` table. -/
abbrev Store := List SessionRec

/-- JavaScript truthiness of a nullable string: `null` and `""` are falsy. -/
def strTruthy : Option String → Bool
  | none => false
  | some s => s != ""

/-- `SELECT * FROM sessions WHERE id = ?` via `db.get` (first matching row). -/
def findById (store : Store) (id : String) : Option SessionRec :=
  store.find? (fun s => s.id == id)

/-- Token validity window: `getTokenExpiry` returns `Date.now() + 30000`. -/
def TOKEN_VALIDITY_MS : Int := 30000

/-- `getTokenExpiry()` of `Session.js`: 30 seconds from now. -/
def getTokenExpiry (now : Int) : Int := now + TOKEN_VALIDITY_MS

/-- `isTokenExpired(tokenExpiry)`: a null expiry is expired, otherwise
`new Date(tokenExpiry) <= new Date()`. -/
def isTokenExpired (tokenExpiry : Option Int) (now : Int) : Bool :=
  match tokenExpiry with
  | none => true
  | some e => decide (e ≤ now)

/-- Result of `validateSessionToken`. -/
inductive ValidationResult where
  | invalid (reason : String)
  | valid (session : SessionRec)
  deriving Repr, DecidableEq

/-- `validateSessionToken(sessionId, token)` of `Session.js`: the ordered
checks exactly as in the source — missing session, inactive session,
`!session.current_token || session.current_token !== token`, expiry. -/
def validateSessionToken (store : Store) (sessionId token : String) (now : Int) :
    ValidationResult :=
  match findById store sessionId with
  | none => .invalid "Session not found"
  | some session =>
    if session.is_active == 0 then .invalid "Session is not active"
    else if !strTruthy session.current_token || session.current_token != some token then
      .invalid "Invalid token"
    else if isTokenExpired session.token_expiry now then .invalid "Token expired"
    else .valid session

/-- The token-match check of `validateSessionToken` in positive form: the
current token is truthy (non-null, non-empty) and equals the presented one. -/
def tokenMatches (s : SessionRec) (token : String) : Bool :=
  strTruthy s.current_token && s.current_token == some token

/-- Input to `Session.create`: the caller-supplied fields.  `currentToken`
and `tokenExpiry` are the optional overrides the source reads with
`sessionData.currentToken || generated` (JS `||`, so an empty string also
falls back to the generated token). -/
structure SessionData where
  facultyId : String
  courseName : String
  courseCode : String
  sectionName : String
  currentToken : Option String
  tokenExpiry : Option Int
  deriving Repr, DecidableEq

/-- `sessionData.currentToken || this.generateSecureToken()`. -/
def chooseToken (provided : Option String) (gen : String) : String :=
  match provided with
  | none => gen
  | some t => if t == "" then gen else t

/-- `sessionData.tokenExpiry || this.getTokenExpiry()`. -/
def chooseExpiry (provided : Option Int) (now : Int) : Int :=
  match provided with
  | none => getTokenExpiry now
  | some e => e

/-- `Session.create(sessionData)`: INSERT a fresh row with `is_active = 1`,
the chosen token and expiry.  `newId` is the generated UUID, `gen` the
generated secure token, `now` the clock. -/
def createS (store : Store) (data : SessionData) (newId gen : String) (now : Int) : Store :=
  store ++ [{ id := newId
              faculty_id := data.facultyId
              course_name := data.courseName
              course_code := data.courseCode
              sectionName := data.sectionName
              start_time := now
              end_time := none
              is_active := 1
              current_token := some (chooseToken data.currentToken gen)
              token_expiry := some (chooseExpiry data.tokenExpiry now)
              tokenSetAt := now }]

/-- `Session.update(id, ...)` skeleton: `UPDATE sessions SET ... WHERE id = ?`,
then `changes === 0` throws `'Session not found'`. -/
def updateWhere (store : Store) (id : String) (f : SessionRec → SessionRec) :
    Except String Store :=
  if store.any (fun s => s.id == id) then
    .ok (store.map (fun s => if s.id == id then f s else s))
  else .error "Session not found"

/-- `Session.endSession(id)`: clears the token pair, stamps `end_time`,
sets `is_active = 0`. -/
def endSessionM (store : Store) (id : String) (now : Int) : Except String Store :=
  updateWhere store id (fun s =>
    { s with is_active := 0, end_time := some now,
             current_token := none, token_expiry := none, tokenSetAt := now })

/-- `Session.updateToken(id, token, expiry)`. -/
def updateTokenM (store : Store) (id : String) (token : String) (expiry : Int)
    (now : Int) : Except String Store :=
  updateWhere store id (fun s =>
    { s with current_token := some token, token_expiry := some expiry, tokenSetAt := now })

/-- `Session.activate(id)`: fresh generated token and 30s expiry. -/
def activateM (store : Store) (id gen : String) (now : Int) : Except String Store :=
  updateWhere store id (fun s =>
    { s with is_active := 1, current_token := some gen,
             token_expiry := some (getTokenExpiry now), tokenSetAt := now })

/-- `Session.deactivate(id)`. -/
def deactivateM (store : Store) (id : String) (now : Int) : Except String Store :=
  updateWhere store id (fun s =>
    { s with is_active := 0, current_token := none, token_expiry := none, tokenSetAt := now })

/-- `Session.rotateToken(id)`: read, check active, install generated token. -/
def rotateTokenM (store : Store) (id gen : String) (now : Int) : Except String Store :=
  match findById store id with
  | none => .error "Session not found"
  | some session =>
    if session.is_active == 0 then .error "Cannot rotate token for inactive session"
    else updateTokenM store id gen (getTokenExpiry now) now

/-- The per-row effect of `cleanupExpiredTokens`:
`SET current_token = NULL, token_expiry = NULL WHERE token_expiry <= now AND
is_active = 1` (a NULL `token_expiry` does not satisfy the SQL comparison). -/
def cleanRec (now : Int) (s : SessionRec) : SessionRec :=
  match s.token_expiry with
  | none => s
  | some e =>
    if e ≤ now ∧ s.is_active = 1 then
      { s with current_token := none, token_expiry := none }
    else s

/-- `Session.cleanupExpiredTokens()` over the whole table. -/
def cleanupExpiredTokensM (store : Store) (now : Int) : Store :=
  store.map (cleanRec now)

/-! ## The attendance ledger (`src/models/Attendance.js`) -/

/-- A row of the `attendance` table (schema of `database.js`; the `timestamp`
column defaults to the insertion time and plays no role in correctness). -/
structure AttendanceRec where
  id : String
  session_id : String
  student_email : String
  ip_address : Option String
  user_agent : Option String
  deriving Repr, DecidableEq

/-- The `attendance` table. -/
abbrev Ledger := List AttendanceRec

/-- Does the ledger already hold a row for `(sessionId, studentEmail)`? -/
def hasPair (l : Ledger) (sessionId studentEmail : String) : Bool :=
  l.any (fun r => r.session_id == sessionId && r.student_email == studentEmail)

/-- Number of ledger rows carrying the pair `(sessionId, studentEmail)`. -/
def pairCount (l : Ledger) (sessionId studentEmail : String) : Nat :=
  (l.filter (fun r => r.session_id == sessionId && r.student_email == studentEmail)).length

/-- The exactly-once invariant: at most one row per `(session, principal)` pair. -/
def ledgerUnique (l : Ledger) : Prop :=
  ∀ sessionId studentEmail, pairCount l sessionId studentEmail ≤ 1

/-- `db.run` of the attendance INSERT: the `UNIQUE(session_id, student_email)`
constraint of the schema makes the insert atomically fail on a duplicate pair,
with SQLite's constraint-violation message.  (The row `id` is a fresh UUID;
its PRIMARY KEY constraint is not modelled.) -/
def insertAttendance (l : Ledger) (r : AttendanceRec) : Except String Ledger :=
  if hasPair l r.session_id r.student_email then
    .error "UNIQUE constraint failed: attendance.session_id, attendance.student_email"
  else .ok (l ++ [r])

/-- Does `needle` occur as a contiguous substring of the character list? -/
def includesAux (needle : List Char) : List Char → Bool
  | [] => needle.isEmpty
  | c :: rest => if needle.isPrefixOf (c :: rest) then true else includesAux needle rest

/-- JavaScript `hay.includes(needle)`. -/
def strIncludes (hay needle : String) : Bool :=
  includesAux needle.data hay.data

/-- `Attendance.markAttendance(sessionId, studentEmail, metadata)`: one atomic
INSERT; a caught error whose message includes `'UNIQUE constraint failed'` is
rethrown as `'Attendance already marked for this session'`.  There is no read
of the ledger before the insert. -/
def markAttendance (l : Ledger) (sessionId studentEmail : String) (newId : String)
    (ipAddress userAgent : Option String) : Except String (Ledger × AttendanceRec) :=
  let r : AttendanceRec :=
    { id := newId, session_id := sessionId, student_email := studentEmail,
      ip_address := ipAddress, user_agent := userAgent }
  match insertAttendance l r with
  | .ok l2 => .ok (l2, r)
  | .error msg =>
    if strIncludes msg "UNIQUE constraint failed" then
      .error "Attendance already marked for this session"
    else .error msg

/-! ## The rotation scheduler (`src/services/QRCodeService.js`) -/

/-- The value stored in `activeRotationTimers` for a session: the `setInterval`
handle (modelled as a numeric timer id), the start timestamp and the interval. -/
structure RotationHandle where
  timerId : Nat
  startedAt : Int
  intervalMs : Nat
  deriving Repr, DecidableEq

/-- The in-memory state of a `QRCodeService` instance: the
`activeRotationTimers` map (insertion-ordered association list, as a JS `Map`),
the set of timers that exist and have not been `clearInterval`ed, and a
fresh-timer-id counter standing for the runtime's allocation of interval
handles. -/
structure SchedulerState where
  timers : List (String × RotationHandle)
  live : List Nat
  nextTimerId : Nat
  deriving Repr, DecidableEq

/-- `activeRotationTimers.get(sessionId)`. -/
def lookupTimer (st : SchedulerState) (sessionId : String) : Option RotationHandle :=
  (st.timers.find? (fun p => p.1 == sessionId)).map Prod.snd

/-- Result of `stopQRRotation` (always `success: true`; no branch throws). -/
structure StopResult where
  success : Bool
  wasActive : Bool
  deriving Repr, DecidableEq

/-- `stopQRRotation(sessionId)`: if a handle is registered, `clearInterval` its
timer and delete the map entry, reporting `wasActive: true`; otherwise report
`wasActive: false`.  Both paths report `success: true`. -/
def stopQRRotation (st : SchedulerState) (sessionId : String) :
    StopResult × SchedulerState :=
  match lookupTimer st sessionId with
  | some h =>
    ({ success := true, wasActive := true },
     { st with timers := st.timers.filter (fun p => p.1 != sessionId),
               live := st.live.erase h.timerId })
  | none => ({ success := true, wasActive := false }, st)

/-- `startQRRotation(sessionId, ...)`: first `stopQRRotation(sessionId)` clears
any existing rotation, then a fresh `setInterval` timer is created and
registered in the map. -/
def startQRRotation (st : SchedulerState) (sessionId : String) (now : Int)
    (intervalMs : Nat) : SchedulerState :=
  let st1 := (stopQRRotation st sessionId).2
  { timers := st1.timers ++ [(sessionId,
      { timerId := st1.nextTimerId, startedAt := now, intervalMs := intervalMs })],
    live := st1.live ++ [st1.nextTimerId],
    nextTimerId := st1.nextTimerId + 1 }

/-- A rotation tick for `sessionId` can fire exactly when the map holds a
handle for it whose timer is still live (not cleared). -/
def canTickB (st : SchedulerState) (sessionId : String) : Bool :=
  match lookupTimer st sessionId with
  | some h => st.live.contains h.timerId
  | none => false

/-- The observable outcome of one body of the `setInterval` callback:
the token-rotation callback succeeded (with the QR generation succeeding or
not), returned `success: false`, or the body threw. -/
inductive TickOutcome where
  | rotateOk (qrOk : Bool)
  | rotateFailed
  | tickThrew
  deriving Repr, DecidableEq

/-- One rotation tick.  When the rotation callback fails (`!tokenResult.success`)
or the body throws, the source calls `this.stopQRRotation(sessionId)`; a
successful rotation (even with a failed QR render) leaves the timers alone. -/
def runTick (st : SchedulerState) (sessionId : String) (o : TickOutcome) :
    SchedulerState :=
  if canTickB st sessionId then
    match o with
    | .rotateOk _ => st
    | .rotateFailed => (stopQRRotation st sessionId).2
    | .tickThrew => (stopQRRotation st sessionId).2
  else st

/-- An event on the scheduler: a caller starts rotation, a caller stops it,
or a registered timer's tick fires. -/
inductive SchedEvent where
  | start (sessionId : String) (now : Int) (intervalMs : Nat)
  | stop (sessionId : String)
  | tick (sessionId : String) (o : TickOutcome)
  deriving Repr, DecidableEq

/-- Apply one event to the scheduler state. -/
def schedStep (st : SchedulerState) : SchedEvent → SchedulerState
  | .start sessionId now i => startQRRotation st sessionId now i
  | .stop sessionId => (stopQRRotation st sessionId).2
  | .tick sessionId o => runTick st sessionId o

/-- Run a sequence of events. -/
def schedRun (st : SchedulerState) (evs : List SchedEvent) : SchedulerState :=
  evs.foldl schedStep st

/-- `true` when the event is not a rotation start for `sessionId`. -/
def notStartFor (sessionId : String) : SchedEvent → Bool
  | .start s _ _ => s != sessionId
  | _ => true

/-- Well-formedness of a scheduler state: the map has one entry per session
(a JS `Map` cannot hold two), every allocated timer id is below the fresh
counter, and timer ids are pairwise distinct. -/
def schedWF (st : SchedulerState) : Prop :=
  (st.timers.map Prod.fst).Nodup ∧
  (∀ p ∈ st.timers, p.2.timerId < st.nextTimerId) ∧
  (∀ t ∈ st.live, t < st.nextTimerId) ∧
  st.live.Nodup

/-! ## The service layer (`src/services/SessionService.js`) -/

/-- The `{success, error}` shape of a service-layer result. -/
structure ServiceResult where
  success : Bool
  error : Option String
  deriving Repr, DecidableEq

/-- `SessionService.endSession(sessionId, facultyId)`: not-found, ownership and
already-ended checks in order, then stop rotation and end the session. -/
def serviceEndSession (store : Store) (sched : SchedulerState)
    (sessionId facultyId : String) (now : Int) :
    ServiceResult × Store × SchedulerState :=
  match findById store sessionId with
  | none => ({ success := false, error := some "Session not found" }, store, sched)
  | some session =>
    if session.faculty_id != facultyId then
      ({ success := false,
         error := some "Unauthorized: Session does not belong to this faculty" },
       store, sched)
    else if session.is_active == 0 then
      ({ success := false, error := some "Session is already ended" }, store, sched)
    else
      let sched1 := (stopQRRotation sched sessionId).2
      match endSessionM store sessionId now with
      | .ok store1 => ({ success := true, error := none }, store1, sched1)
      | .error e => ({ success := false, error := some e }, store, sched1)

/-- Result of `SessionService.validateAttendanceToken`: in the source the
success object carries no `canRetry` key (reads as falsy), modelled as
`canRetry := false`. -/
structure AttendanceValidation where
  success : Bool
  session : Option SessionRec
  error : Option String
  canRetry : Bool
  deriving Repr, DecidableEq

/-- `SessionService.validateAttendanceToken(sessionId, token)`: delegate to
`validateSessionToken`; on rejection, `canRetry` is
`validation.reason === 'Token expired'`. -/
def validateAttendanceToken (store : Store) (sessionId token : String) (now : Int) :
    AttendanceValidation :=
  match validateSessionToken store sessionId token now with
  | .invalid reason =>
    { success := false, session := none, error := some reason,
      canRetry := reason == "Token expired" }
  | .valid s =>
    { success := true, session := some s, error := none, canRetry := false }

/-! ## Invariant checkers and spec-side gates -/

/-- Bool checker for the spec's session-state invariant (claim C4):
`Ended ⇒ both credential fields null`; `Active ⇒ token non-null and expiry
set to a value strictly later than the moment it was written`. -/
def recStrongOk (s : SessionRec) : Bool :=
  (if s.is_active = 0 then s.current_token == none && s.token_expiry == none
   else true) &&
  (if s.is_active ≠ 0 then
     (s.current_token != none) &&
     (match s.token_expiry with
      | some e => decide (s.tokenSetAt < e)
      | none => false)
   else true)

/-- Weakened active-branch invariant: an active session may also have *both*
credential fields cleared (the state `cleanupExpiredTokens` produces). -/
def recWeakOk (s : SessionRec) : Bool :=
  (if s.is_active = 0 then s.current_token == none && s.token_expiry == none
   else true) &&
  (if s.is_active ≠ 0 then
     (s.current_token == none && s.token_expiry == none) ||
     ((s.current_token != none) &&
      (match s.token_expiry with
       | some e => decide (s.tokenSetAt < e)
       | none => false))
   else true)

/-- The strong invariant over the whole table. -/
def storeStrongOk (store : Store) : Bool := store.all recStrongOk

/-- The weak invariant over the whole table. -/
def storeWeakOk (store : Store) : Bool := store.all recWeakOk

/-- The validation order exactly as claim C2 words it: the third check
rejects when the presented token is *different from* the session's current
token, and the first failing check alone determines the reason. -/
def claimC2Gate (store : Store) (sessionId token : String) (now : Int) :
    ValidationResult :=
  match findById store sessionId with
  | none => .invalid "Session not found"
  | some session =>
    if session.is_active = 0 then .invalid "Session is not active"
    else if session.current_token ≠ some token then .invalid "Invalid token"
    else if isTokenExpired session.token_expiry now then .invalid "Token expired"
    else .valid session

/-- The amended claim-C2 validation order: the third check also rejects when
the stored current token is null or the empty string (JS falsiness), even if
the presented token is equal to it. -/
def claimC2GateAmended (store : Store) (sessionId token : String) (now : Int) :
    ValidationResult :=
  match findById store sessionId with
  | none => .invalid "Session not found"
  | some session =>
    if session.is_active = 0 then .invalid "Session is not active"
    else if session.current_token = none ∨ session.current_token = some "" ∨
            session.current_token ≠ some token then .invalid "Invalid token"
    else if isTokenExpired session.token_expiry now then .invalid "Token expired"
    else .valid session

/-! ## Concrete instances used by counterexamples and witnesses -/

/-- An active session with a fresh, matching token (expiry at 30000). -/
def sessActive : SessionRec :=
  { id := "s1", faculty_id := "f1", course_name := "Course", course_code := "CSE201",
    sectionName := "A", start_time := 0, end_time := none, is_active := 1,
    current_token := some "tok123", token_expiry := some 30000, tokenSetAt := 0 }

/-- An ended session (both credential fields null). -/
def sessEnded : SessionRec :=
  { id := "s2", faculty_id := "f1", course_name := "Course", course_code := "CSE201",
    sectionName := "A", start_time := 0, end_time := some 5, is_active := 0,
    current_token := none, token_expiry := none, tokenSetAt := 5 }

/-- An active session whose stored token is the empty string. -/
def sessEmptyTok : SessionRec :=
  { id := "s3", faculty_id := "f1", course_name := "Course", course_code := "CSE201",
    sectionName := "A", start_time := 0, end_time := none, is_active := 1,
    current_token := some "", token_expiry := some 1000, tokenSetAt := 0 }

/-- An active session whose token already lapsed (expiry 50, set at 10). -/
def sessExpired : SessionRec :=
  { id := "s4", faculty_id := "f1", course_name := "Course", course_code := "CSE201",
    sectionName := "A", start_time := 0, end_time := none, is_active := 1,
    current_token := some "old", token_expiry := some 50, tokenSetAt := 10 }

/-- An active session whose credential fields were nulled by cleanup. -/
def sessNullTok : SessionRec :=
  { id := "s5", faculty_id := "f1", course_name := "Course", course_code := "CSE201",
    sectionName := "A", start_time := 0, end_time := none, is_active := 1,
    current_token := none, token_expiry := none, tokenSetAt := 10 }

/-- Caller-supplied session data with no token/expiry overrides. -/
def dataPlain : SessionData :=
  { facultyId := "f1", courseName := "Course", courseCode := "CSE201",
    sectionName := "A", currentToken := none, tokenExpiry := none }

/-- Caller-supplied session data overriding the expiry with a past instant. -/
def dataPastExpiry : SessionData :=
  { facultyId := "f1", courseName := "Course", courseCode := "CSE201",
    sectionName := "A", currentToken := none, tokenExpiry := some 10 }

/-- A scheduler tracking one live rotation timer for session `"s1"`. -/
def schedOne : SchedulerState :=
  { timers := [("s1", { timerId := 0, startedAt := 0, intervalMs := 30000 })],
    live := [0], nextTimerId := 1 }

/-! ## Helper lemmas on the scheduler -/

theorem find?_key_filter_self (l : List (String × RotationHandle)) (sid : String) :
    (l.filter (fun p => p.1 != sid)).find? (fun p => p.1 == sid) = none := by
  rw [List.find?_eq_none]
  intro x hx
  have h2 := (List.mem_filter.mp hx).2
  simp only [bne_iff_ne, ne_eq] at h2
  simpa using h2

theorem find?_key_filter_other (l : List (String × RotationHandle)) (sid sid' : String)
    (h : sid ≠ sid') :
    (l.filter (fun p => p.1 != sid')).find? (fun p => p.1 == sid) =
      l.find? (fun p => p.1 == sid) := by
  induction l with
  | nil => rfl
  | cons a tl ih =>
    rcases eq_or_ne a.1 sid' with ha | ha
    · have hane : (a.1 == sid) = false := beq_eq_false_iff_ne.mpr (by rw [ha]; exact Ne.symm h)
      have hfa : (a.1 != sid') = false := by simp [ha]
      simp [List.filter_cons, hfa, List.find?_cons, hane, ih]
    · have hfa : (a.1 != sid') = true := by simp [ha]
      simp only [List.filter_cons, hfa, if_true]
      rw [List.find?_cons, List.find?_cons]
      cases hb : (a.1 == sid) <;> simp [hb, ih]

theorem stop_none_eq (st : SchedulerState) (sid : String)
    (h : lookupTimer st sid = none) :
    stopQRRotation st sid = ({ success := true, wasActive := false }, st) := by
  unfold stopQRRotation
  rw [h]

theorem stop_some_eq (st : SchedulerState) (sid : String) (hd : RotationHandle)
    (h : lookupTimer st sid = some hd) :
    stopQRRotation st sid =
      ({ success := true, wasActive := true },
       { st with timers := st.timers.filter (fun p => p.1 != sid),
                 live := st.live.erase hd.timerId }) := by
  unfold stopQRRotation
  rw [h]

theorem lookupTimer_stop_self (st : SchedulerState) (sid : String) :
    lookupTimer (stopQRRotation st sid).2 sid = none := by
  cases hlk : lookupTimer st sid with
  | none => rw [stop_none_eq st sid hlk]; exact hlk
  | some hd =>
    rw [stop_some_eq st sid hd hlk]
    simp [lookupTimer, find?_key_filter_self]

theorem lookupTimer_stop_other (st : SchedulerState) (sid sid' : String) (h : sid ≠ sid') :
    lookupTimer (stopQRRotation st sid').2 sid = lookupTimer st sid := by
  cases hlk : lookupTimer st sid' with
  | none => rw [stop_none_eq st sid' hlk]
  | some hd =>
    rw [stop_some_eq st sid' hd hlk]
    simp [lookupTimer, find?_key_filter_other _ _ _ h]

theorem live_stop_subset (st : SchedulerState) (sid : String) :
    ∀ t ∈ ((stopQRRotation st sid).2).live, t ∈ st.live := by
  cases hlk : lookupTimer st sid with
  | none => rw [stop_none_eq st sid hlk]; exact fun t ht => ht
  | some hd =>
    rw [stop_some_eq st sid hd hlk]
    exact fun t ht => List.mem_of_mem_erase ht

theorem timers_stop_mem (st : SchedulerState) (sid : String) :
    ∀ p ∈ ((stopQRRotation st sid).2).timers, p ∈ st.timers := by
  cases hlk : lookupTimer st sid with
  | none => rw [stop_none_eq st sid hlk]; exact fun p hp => hp
  | some hd =>
    rw [stop_some_eq st sid hd hlk]
    exact fun p hp => List.mem_of_mem_filter hp

theorem nextTimerId_stop (st : SchedulerState) (sid : String) :
    ((stopQRRotation st sid).2).nextTimerId = st.nextTimerId := by
  cases hlk : lookupTimer st sid with
  | none => rw [stop_none_eq st sid hlk]
  | some hd => rw [stop_some_eq st sid hd hlk]

theorem start_timers_eq (st : SchedulerState) (sid : String) (now : Int) (i : Nat) :
    (startQRRotation st sid now i).timers =
      ((stopQRRotation st sid).2).timers ++
        [(sid, { timerId := ((stopQRRotation st sid).2).nextTimerId,
                 startedAt := now, intervalMs := i })] := rfl

theorem start_live_eq (st : SchedulerState) (sid : String) (now : Int) (i : Nat) :
    (startQRRotation st sid now i).live =
      ((stopQRRotation st sid).2).live ++ [((stopQRRotation st sid).2).nextTimerId] := rfl

theorem no_sid_key_after_stop (st : SchedulerState) (sid : String) :
    ((stopQRRotation st sid).2).timers.find? (fun p => p.1 == sid) = none := by
  have h := lookupTimer_stop_self st sid
  unfold lookupTimer at h
  exact Option.map_eq_none'.mp h

theorem no_sid_filter_after_stop (st : SchedulerState) (sid : String) :
    ((stopQRRotation st sid).2).timers.filter (fun p => p.1 == sid) = [] := by
  rw [List.filter_eq_nil_iff]
  have h := no_sid_key_after_stop st sid
  rw [List.find?_eq_none] at h
  exact h

theorem not_key_mem_after_stop (st : SchedulerState) (sid : String) :
    sid ∉ ((stopQRRotation st sid).2).timers.map Prod.fst := by
  intro hmem
  rcases List.mem_map.mp hmem with ⟨p, hp, hfst⟩
  have h := no_sid_key_after_stop st sid
  rw [List.find?_eq_none] at h
  exact h p hp (by simpa using hfst)

theorem lookupTimer_mem (st : SchedulerState) (sid : String) (hd : RotationHandle)
    (h : lookupTimer st sid = some hd) : (sid, hd) ∈ st.timers := by
  unfold lookupTimer at h
  cases hf : st.timers.find? (fun p => p.1 == sid) with
  | none => rw [hf] at h; cases h
  | some p =>
    rw [hf] at h
    have hmem := List.mem_of_find?_eq_some hf
    have hkey := List.find?_some hf
    rcases p with ⟨k, v⟩
    rw [Option.map_some'] at h
    injection h with hv
    have hk : k = sid := by simpa using hkey
    subst hk
    subst hv
    exact hmem

theorem schedWF_stop (st : SchedulerState) (sid : String) (hwf : schedWF st) :
    schedWF (stopQRRotation st sid).2 := by
  obtain ⟨hk, hbt, hbl, hnd⟩ := hwf
  cases hlk : lookupTimer st sid with
  | none => rw [stop_none_eq st sid hlk]; exact ⟨hk, hbt, hbl, hnd⟩
  | some hd =>
    rw [stop_some_eq st sid hd hlk]
    refine ⟨?_, ?_, ?_, ?_⟩
    · exact hk.sublist ((List.filter_sublist st.timers).map Prod.fst)
    · exact fun p hp => hbt p (List.mem_of_mem_filter hp)
    · exact fun t ht => hbl t (List.mem_of_mem_erase ht)
    · exact hnd.erase _

theorem schedWF_start (st : SchedulerState) (sid : String) (now : Int) (i : Nat)
    (hwf : schedWF st) : schedWF (startQRRotation st sid now i) := by
  obtain ⟨hk1, hbt1, hbl1, hnd1⟩ := schedWF_stop st sid hwf
  have hnext := nextTimerId_stop st sid
  refine ⟨?_, ?_, ?_, ?_⟩
  · rw [start_timers_eq, List.map_append, List.nodup_append]
    refine ⟨hk1, by simp, ?_⟩
    intro a ha hb
    simp only [List.map_cons, List.map_nil, List.mem_singleton] at hb
    rw [hb] at ha
    exact not_key_mem_after_stop st sid ha
  · intro p hp
    rw [start_timers_eq] at hp
    show p.2.timerId < (startQRRotation st sid now i).nextTimerId
    have hN : (startQRRotation st sid now i).nextTimerId =
        ((stopQRRotation st sid).2).nextTimerId + 1 := rfl
    rw [hN]
    rcases List.mem_append.mp hp with h1 | h1
    · exact Nat.lt_succ_of_lt (hbt1 p h1)
    · simp only [List.mem_singleton] at h1
      subst h1
      exact Nat.lt_succ_self _
  · intro t ht
    rw [start_live_eq] at ht
    have hN : (startQRRotation st sid now i).nextTimerId =
        ((stopQRRotation st sid).2).nextTimerId + 1 := rfl
    rw [hN]
    rcases List.mem_append.mp ht with h1 | h1
    · exact Nat.lt_succ_of_lt (hbl1 t h1)
    · simp only [List.mem_singleton] at h1
      subst h1
      exact Nat.lt_succ_self _
  · rw [start_live_eq, List.nodup_append]
    refine ⟨hnd1, by simp, ?_⟩
    intro a ha hb
    simp only [List.mem_singleton] at hb
    subst hb
    exact absurd (hbl1 _ ha) (lt_irrefl _)

theorem schedWF_step (st : SchedulerState) (e : SchedEvent) (hwf : schedWF st) :
    schedWF (schedStep st e) := by
  cases e with
  | start sid now i => exact schedWF_start st sid now i hwf
  | stop sid => exact schedWF_stop st sid hwf
  | tick sid o =>
    show schedWF (runTick st sid o)
    unfold runTick
    by_cases hc : canTickB st sid = true
    · rw [if_pos hc]
      cases o with
      | rotateOk q => exact hwf
      | rotateFailed => exact schedWF_stop st sid hwf
      | tickThrew => exact schedWF_stop st sid hwf
    · rw [if_neg hc]; exact hwf

theorem canTickB_lookup_none (st : SchedulerState) (sid : String)
    (h : lookupTimer st sid = none) : canTickB st sid = false := by
  unfold canTickB
  rw [h]

theorem canTickB_stop_preserve (st : SchedulerState) (sid sid' : String)
    (h : canTickB st sid = false) :
    canTickB (stopQRRotation st sid').2 sid = false := by
  by_cases hss : sid = sid'
  · subst hss
    exact canTickB_lookup_none _ _ (lookupTimer_stop_self st sid)
  · unfold canTickB at h ⊢
    rw [lookupTimer_stop_other st sid sid' hss]
    cases hlk : lookupTimer st sid with
    | none => rfl
    | some hd =>
      rw [hlk] at h
      rw [Bool.eq_false_iff] at h ⊢
      intro hcont
      exact h (List.elem_iff.mpr
        (live_stop_subset st sid' _ (List.elem_iff.mp hcont)))

theorem lookupTimer_start_other (st : SchedulerState) (sid sid' : String)
    (now : Int) (i : Nat) (hne : sid ≠ sid') :
    lookupTimer (startQRRotation st sid' now i) sid = lookupTimer st sid := by
  rw [← lookupTimer_stop_other st sid sid' hne]
  unfold lookupTimer
  rw [start_timers_eq, List.find?_append]
  have h2 : ∀ hd2 : RotationHandle,
      ([(sid', hd2)]).find? (fun p => p.1 == sid) = none := by
    intro hd2
    rw [List.find?_eq_none]
    intro x hx
    simp only [List.mem_singleton] at hx
    subst hx
    simpa using Ne.symm hne
  rw [h2, Option.or_none]

theorem canTickB_start_preserve (st : SchedulerState) (sid sid' : String)
    (now : Int) (i : Nat) (hwf : schedWF st) (hne : sid ≠ sid')
    (h : canTickB st sid = false) :
    canTickB (startQRRotation st sid' now i) sid = false := by
  unfold canTickB at h ⊢
  rw [lookupTimer_start_other st sid sid' now i hne]
  cases hlk : lookupTimer st sid with
  | none => rfl
  | some hd =>
    rw [hlk] at h
    rw [Bool.eq_false_iff] at h ⊢
    intro hcont
    have hmem := List.elem_iff.mp hcont
    rw [start_live_eq] at hmem
    rcases List.mem_append.mp hmem with h1 | h1
    · exact h (List.elem_iff.mpr (live_stop_subset st sid' _ h1))
    · simp only [List.mem_singleton, nextTimerId_stop] at h1
      have hlt := hwf.2.1 _ (lookupTimer_mem st sid hd hlk)
      rw [h1] at hlt
      exact lt_irrefl _ hlt

theorem canTickB_false_run (evs : List SchedEvent) (st : SchedulerState) (sid : String)
    (hwf : schedWF st) (h : canTickB st sid = false)
    (hnostart : evs.all (notStartFor sid) = true) :
    canTickB (schedRun st evs) sid = false := by
  induction evs generalizing st with
  | nil => exact h
  | cons e tl ih =>
    rw [List.all_cons, Bool.and_eq_true] at hnostart
    have hstep : canTickB (schedStep st e) sid = false := by
      cases e with
      | start sid' now i =>
        have hne : sid ≠ sid' := by
          have hns := hnostart.1
          simp only [notStartFor, bne_iff_ne, ne_eq] at hns
          exact fun hh => hns hh.symm
        exact canTickB_start_preserve st sid sid' now i hwf hne h
      | stop sid' => exact canTickB_stop_preserve st sid sid' h
      | tick sid' o =>
        show canTickB (runTick st sid' o) sid = false
        unfold runTick
        by_cases hc : canTickB st sid' = true
        · rw [if_pos hc]
          cases o with
          | rotateOk q => exact h
          | rotateFailed => exact canTickB_stop_preserve st sid sid' h
          | tickThrew => exact canTickB_stop_preserve st sid sid' h
        · rw [if_neg hc]; exact h
    exact ih (schedStep st e) (schedWF_step st e hwf) hstep hnostart.2

/-! ## Helper lemmas on the ledger -/

theorem pairCount_append (l1 l2 : Ledger) (a b : String) :
    pairCount (l1 ++ l2) a b = pairCount l1 a b + pairCount l2 a b := by
  simp [pairCount, List.filter_append]

theorem pairCount_eq_zero (l : Ledger) (a b : String) (h : hasPair l a b = false) :
    pairCount l a b = 0 := by
  unfold pairCount
  rw [List.length_eq_zero, List.filter_eq_nil_iff]
  intro r hr
  unfold hasPair at h
  rw [List.any_eq_false] at h
  exact h r hr

/-! ## Helper lemmas on the session-state invariant -/

theorem recStrongOk_of_cleared (s : SessionRec) (ha : s.is_active = 0)
    (ht : s.current_token = none) (he : s.token_expiry = none) :
    recStrongOk s = true := by
  simp [recStrongOk, ha, ht, he]

theorem recStrongOk_of_fields (s : SessionRec) (hact : s.is_active ≠ 0)
    (ht : s.current_token ≠ none)
    (he : ∃ e, s.token_expiry = some e ∧ s.tokenSetAt < e) :
    recStrongOk s = true := by
  obtain ⟨e, he1, he2⟩ := he
  simp [recStrongOk, hact, he1, he2, bne_iff_ne, ht]

theorem recStrongOk_imp_weak (s : SessionRec) (h : recStrongOk s = true) :
    recWeakOk s = true := by
  unfold recStrongOk at h
  unfold recWeakOk
  rw [Bool.and_eq_true] at h ⊢
  refine ⟨h.1, ?_⟩
  by_cases ha : s.is_active = 0
  · simp [ha]
  · have h2 := h.2
    rw [if_pos ha] at h2
    rw [if_pos ha, h2]
    simp

theorem cleanRec_none (s : SessionRec) (now : Int) (h : s.token_expiry = none) :
    cleanRec now s = s := by
  unfold cleanRec
  rw [h]

theorem cleanRec_some (s : SessionRec) (now e : Int) (h : s.token_expiry = some e) :
    cleanRec now s =
      if e ≤ now ∧ s.is_active = 1 then
        { s with current_token := none, token_expiry := none }
      else s := by
  unfold cleanRec
  rw [h]

theorem recWeakOk_clean (s : SessionRec) (now : Int) (h : recStrongOk s = true) :
    recWeakOk (cleanRec now s) = true := by
  cases hte : s.token_expiry with
  | none =>
    rw [cleanRec_none s now hte]
    exact recStrongOk_imp_weak s h
  | some e =>
    rw [cleanRec_some s now e hte]
    by_cases hc : e ≤ now ∧ s.is_active = 1
    · rw [if_pos hc]
      have ha : s.is_active ≠ 0 := by rw [hc.2]; exact one_ne_zero
      simp [recWeakOk, ha]
    · rw [if_neg hc]
      exact recStrongOk_imp_weak s h

theorem storeStrongOk_updateWhere (store : Store) (sid : String)
    (f : SessionRec → SessionRec) (hstrong : storeStrongOk store = true)
    (hf : ∀ s ∈ store, s.id = sid → recStrongOk (f s) = true) :
    ∀ st2, updateWhere store sid f = .ok st2 → storeStrongOk st2 = true := by
  intro st2 hok
  unfold updateWhere at hok
  by_cases hany : store.any (fun s => s.id == sid) = true
  · rw [if_pos hany] at hok
    injection hok with hok2
    subst hok2
    rw [storeStrongOk, List.all_eq_true]
    intro x hx
    rcases List.mem_map.mp hx with ⟨s, hs, rfl⟩
    rw [storeStrongOk, List.all_eq_true] at hstrong
    cases hid : (s.id == sid) with
    | true => simp only [hid, if_true]; exact hf s hs (by simpa using hid)
    | false => simp only [hid, Bool.false_eq_true, if_false]; exact hstrong s hs
  · rw [if_neg hany] at hok
    exact Except.noConfusion hok

theorem findById_unique (store : Store) (sid : String)
    (hnd : (store.map SessionRec.id).Nodup) (s : SessionRec)
    (hs : s ∈ store) (hid : s.id = sid) : findById store sid = some s := by
  induction store with
  | nil => cases hs
  | cons a tl ih =>
    rw [List.map_cons, List.nodup_cons] at hnd
    rcases List.mem_cons.mp hs with rfl | hmem
    · unfold findById
      rw [List.find?_cons, show (s.id == sid) = true by simpa using hid]
    · have hane : a.id ≠ sid := by
        intro hcontra
        have hmm : s.id ∈ tl.map SessionRec.id := List.mem_map_of_mem SessionRec.id hmem
        rw [hid, ← hcontra] at hmm
        exact hnd.1 hmm
      unfold findById
      rw [List.find?_cons, show (a.id == sid) = false by simpa using hane]
      exact ih hnd.2 hmem

theorem rotateTokenM_some (store : Store) (id gen : String) (now : Int)
    (sess : SessionRec) (h : findById store id = some sess) :
    rotateTokenM store id gen now =
      if sess.is_active == 0 then .error "Cannot rotate token for inactive session"
      else updateTokenM store id gen (getTokenExpiry now) now := by
  unfold rotateTokenM
  rw [h]

/-! ## Claim theorems -/

/-- C1: exactly-once consumption.  On a ledger satisfying the uniqueness
invariant, the first `markAttendance(S, P)` performs the single atomic insert
and yields a ledger with exactly one `(S, P)` record (so the invariant still
holds), and any `markAttendance(S, P)` finding the pair present fails with
`'Attendance already marked for this session'` — the translation of the
storage layer's `UNIQUE(session_id, student_email)` violation. -/
theorem c1_exactly_once (l : Ledger) (sid email newId : String)
    (ip ua : Option String) (huniq : ledgerUnique l) :
    (hasPair l sid email = false →
      ∃ l2 r, markAttendance l sid email newId ip ua = .ok (l2, r) ∧
        r.session_id = sid ∧ r.student_email = email ∧
        pairCount l2 sid email = 1 ∧ hasPair l2 sid email = true ∧
        ledgerUnique l2) ∧
    (hasPair l sid email = true →
      markAttendance l sid email newId ip ua =
        .error "Attendance already marked for this session") := by
  constructor
  · intro h
    refine ⟨l ++ [⟨newId, sid, email, ip, ua⟩], ⟨newId, sid, email, ip, ua⟩,
      ?_, rfl, rfl, ?_, ?_, ?_⟩
    · simp [markAttendance, insertAttendance, h]
    · rw [pairCount_append, pairCount_eq_zero l sid email h]
      simp [pairCount]
    · simp [hasPair]
    · intro a b
      rw [pairCount_append]
      by_cases ha : a = sid
      · by_cases hb : b = email
        · subst ha; subst hb
          rw [pairCount_eq_zero l a b h]
          simp [pairCount]
        · have hb2 : (email == b) = false := beq_eq_false_iff_ne.mpr fun hh => hb hh.symm
          have : pairCount [(⟨newId, sid, email, ip, ua⟩ : AttendanceRec)] a b = 0 := by
            simp [pairCount, hb2]
          rw [this]
          simpa using huniq a b
      · have ha2 : (sid == a) = false := beq_eq_false_iff_ne.mpr fun hh => ha hh.symm
        have : pairCount [(⟨newId, sid, email, ip, ua⟩ : AttendanceRec)] a b = 0 := by
          simp [pairCount, ha2]
        rw [this]
        simpa using huniq a b
  · intro h
    have hinc : strIncludes
        "UNIQUE constraint failed: attendance.session_id, attendance.student_email"
        "UNIQUE constraint failed" = true := by decide
    simp [markAttendance, insertAttendance, h, hinc]

/-- C1 witness: marking on the empty ledger inserts the single record;
the resulting ledger still satisfies uniqueness. -/
theorem c1_exactly_once_witness :
    (hasPair ([] : Ledger) "s1" "stu@example.edu" = false →
      ∃ l2 r, markAttendance [] "s1" "stu@example.edu" "id1" none none = .ok (l2, r) ∧
        r.session_id = "s1" ∧ r.student_email = "stu@example.edu" ∧
        pairCount l2 "s1" "stu@example.edu" = 1 ∧
        hasPair l2 "s1" "stu@example.edu" = true ∧ ledgerUnique l2) ∧
    (hasPair ([] : Ledger) "s1" "stu@example.edu" = true →
      markAttendance [] "s1" "stu@example.edu" "id1" none none =
        .error "Attendance already marked for this session") :=
  c1_exactly_once [] "s1" "stu@example.edu" "id1" none none
    (fun a b => by simp [pairCount])

/-- C4 (counterexample): the claimed invariant is not preserved by every
listed operation.  `cleanupExpiredTokens` turns a strong-invariant store
holding an active session with a lapsed token into one with an active,
token-less session; `updateToken` on an ended session installs a token while
`is_active = 0`; and `create` with a caller-supplied past expiry produces an
active session whose expiry was not in the future when set. -/
theorem c4_counterexample :
    storeStrongOk [sessExpired] = true ∧
    storeStrongOk (cleanupExpiredTokensM [sessExpired] 100) = false ∧
    findById (cleanupExpiredTokensM [sessExpired] 100) "s4" =
      some { sessExpired with current_token := none, token_expiry := none } ∧
    ((updateTokenM [sessEnded] "s2" "tok" 999 50).toOption.map storeStrongOk
      = some false) ∧
    storeStrongOk (createS [] dataPastExpiry "id1" "gen1" 100) = false := by
  refine ⟨?_, ?_, ?_, ?_, ?_⟩ <;> decide

/-- C4 (amended): on a store satisfying the invariant, `create` (provided any
caller-supplied expiry lies in the future), `endSession`, `activate`,
`deactivate`, `rotateToken` (on a store with unique ids), and `updateToken`
(when its target sessions are active and the new expiry is in the future, as
`rotateToken` guarantees) preserve the invariant — `Ended ⇒ both credential
fields null` and `Active ⇒ token non-null with expiry in the future at the
moment it was set` — while `cleanupExpiredTokens` preserves only the weakened
form in which an active session may instead have both credential fields
null. -/
theorem c4_invariant_preservation
    (store : Store) (data : SessionData) (newId gen tok sid : String) (e2 now : Int)
    (hstrong : storeStrongOk store = true)
    (hids : (store.map SessionRec.id).Nodup)
    (hdata : ∀ e, data.tokenExpiry = some e → now < e)
    (hupd : ∀ s ∈ store, s.id = sid → s.is_active ≠ 0)
    (hexp : now < e2) :
    storeStrongOk (createS store data newId gen now) = true ∧
    (∀ st2, endSessionM store sid now = .ok st2 → storeStrongOk st2 = true) ∧
    (∀ st2, activateM store sid gen now = .ok st2 → storeStrongOk st2 = true) ∧
    (∀ st2, deactivateM store sid now = .ok st2 → storeStrongOk st2 = true) ∧
    (∀ st2, updateTokenM store sid tok e2 now = .ok st2 → storeStrongOk st2 = true) ∧
    (∀ st2, rotateTokenM store sid gen now = .ok st2 → storeStrongOk st2 = true) ∧
    storeWeakOk (cleanupExpiredTokensM store now) = true := by
  have hfresh : now < getTokenExpiry now := by
    unfold getTokenExpiry TOKEN_VALIDITY_MS
    omega
  refine ⟨?_, ?_, ?_, ?_, ?_, ?_, ?_⟩
  · -- create
    have hexpC : now < chooseExpiry data.tokenExpiry now := by
      cases hde : data.tokenExpiry with
      | none => simpa [chooseExpiry] using hfresh
      | some e3 => simpa [chooseExpiry] using hdata e3 hde
    rw [createS, storeStrongOk, List.all_append]
    rw [storeStrongOk] at hstrong
    rw [hstrong]
    simp only [Bool.true_and, List.all_cons, List.all_nil, Bool.and_true]
    refine recStrongOk_of_fields _ ?_ ?_ ⟨_, rfl, hexpC⟩
    · simp
    · simp
  · exact storeStrongOk_updateWhere store sid _ hstrong
      (fun s _ _ => recStrongOk_of_cleared _ rfl rfl rfl)
  · refine storeStrongOk_updateWhere store sid _ hstrong (fun s _ _ => ?_)
    refine recStrongOk_of_fields _ ?_ ?_ ⟨_, rfl, hfresh⟩
    · simp
    · simp
  · exact storeStrongOk_updateWhere store sid _ hstrong
      (fun s _ _ => recStrongOk_of_cleared _ rfl rfl rfl)
  · refine storeStrongOk_updateWhere store sid _ hstrong (fun s hs hid => ?_)
    refine recStrongOk_of_fields _ ?_ ?_ ⟨_, rfl, hexp⟩
    · exact hupd s hs hid
    · simp
  · intro st2 hok
    cases hfnd : findById store sid with
    | none =>
      unfold rotateTokenM at hok
      rw [hfnd] at hok
      exact Except.noConfusion hok
    | some sess =>
      rw [rotateTokenM_some store sid gen now sess hfnd] at hok
      by_cases hA : (sess.is_active == 0) = true
      · rw [if_pos hA] at hok
        exact Except.noConfusion hok
      · rw [if_neg hA] at hok
        have hactive : sess.is_active ≠ 0 := by simpa using hA
        refine storeStrongOk_updateWhere store sid _ hstrong
          (fun s hs hid => ?_) st2 hok
        have hsame : findById store sid = some s := findById_unique store sid hids s hs hid
        rw [hfnd] at hsame
        injection hsame with hss
        refine recStrongOk_of_fields _ ?_ ?_ ⟨_, rfl, hfresh⟩
        · exact hss ▸ hactive
        · simp
  · rw [cleanupExpiredTokensM, storeWeakOk, List.all_eq_true]
    intro x hx
    rcases List.mem_map.mp hx with ⟨s, hs, rfl⟩
    rw [storeStrongOk, List.all_eq_true] at hstrong
    exact recWeakOk_clean s now (hstrong s hs)

/-- C4 witness: on a concrete two-session store satisfying the invariant, all
seven operations (targeting the active session) preserve it, cleanup in the
weakened form. -/
theorem c4_invariant_preservation_witness :
    storeStrongOk (createS [sessActive, sessEnded] dataPlain "id9" "gen9" 100) = true ∧
    (∀ st2, endSessionM [sessActive, sessEnded] "s1" 100 = .ok st2 →
      storeStrongOk st2 = true) ∧
    (∀ st2, activateM [sessActive, sessEnded] "s1" "gen9" 100 = .ok st2 →
      storeStrongOk st2 = true) ∧
    (∀ st2, deactivateM [sessActive, sessEnded] "s1" 100 = .ok st2 →
      storeStrongOk st2 = true) ∧
    (∀ st2, updateTokenM [sessActive, sessEnded] "s1" "tok9" 50000 100 = .ok st2 →
      storeStrongOk st2 = true) ∧
    (∀ st2, rotateTokenM [sessActive, sessEnded] "s1" "gen9" 100 = .ok st2 →
      storeStrongOk st2 = true) ∧
    storeWeakOk (cleanupExpiredTokensM [sessActive, sessEnded] 100) = true :=
  c4_invariant_preservation [sessActive, sessEnded] dataPlain "id9" "gen9" "tok9" "s1"
    50000 100 (by decide) (by decide) (fun e he => by simp [dataPlain] at he)
    (by decide) (by decide)

/-- C2 (counterexample): an active, unexpired session whose stored current
token is the empty string rejects the equal presented token `""` with reason
`'Invalid token'`, while the claim's check order ("a presented token different
from the session's current token gives 'Invalid token', else expiry, else
valid") would accept it. -/
theorem c2_counterexample :
    validateSessionToken [sessEmptyTok] "s3" "" 0 = .invalid "Invalid token" ∧
    claimC2Gate [sessEmptyTok] "s3" "" 0 = .valid sessEmptyTok := by
  constructor <;> decide

/-- C2 (amended): for every `(sessionId, token)` input, `validateSessionToken`
performs its checks in the fixed order — unknown session, inactive session,
then a mismatch check that also fires when the stored token is null or empty,
then expiry — and the first failing check alone determines the reason. -/
theorem c2_gate_order (store : Store) (sessionId token : String) (now : Int) :
    validateSessionToken store sessionId token now =
      claimC2GateAmended store sessionId token now := by
  unfold validateSessionToken claimC2GateAmended
  cases findById store sessionId with
  | none => rfl
  | some s =>
    by_cases h0 : s.is_active = 0
    · simp [h0]
    · have h0b : (s.is_active == 0) = false := by simp [h0]
      simp only [h0b, Bool.false_eq_true, if_false, if_neg h0]
      cases hct : s.current_token with
      | none => simp [strTruthy]
      | some t =>
        by_cases ht : t = ""
        · subst ht; simp [strTruthy]
        · by_cases he : t = token
          · subst he; simp [strTruthy, ht]
          · simp [strTruthy, ht, he]

/-- C3 (counterexample): an active session whose stored current token is the
empty string and therefore equal to the presented `""` credential is rejected
as `'Invalid token'` even at exactly its expiry timestamp (1000), where the
claim requires `'Token expired'` (and, strictly before expiry, acceptance). -/
theorem c3_counterexample :
    sessEmptyTok.is_active = 1 ∧
    sessEmptyTok.current_token = some "" ∧
    sessEmptyTok.token_expiry = some 1000 ∧
    validateSessionToken [sessEmptyTok] "s3" "" 1000 = .invalid "Invalid token" := by
  refine ⟨?_, ?_, ?_, ?_⟩ <;> decide

/-- C3 (amended): for an active session whose current token passes the gate's
match check (non-null, non-empty, equal to the presented credential) and whose
expiry is `e`, validation strictly before `e` is accepted and validation at
`e` or later is rejected as `'Token expired'`. -/
theorem c3_expiry_boundary (store : Store) (sid tok : String) (now e : Int)
    (s : SessionRec) (hfind : findById store sid = some s)
    (hactive : s.is_active ≠ 0) (hmatch : tokenMatches s tok = true)
    (hexp : s.token_expiry = some e) :
    (now < e → validateSessionToken store sid tok now = .valid s) ∧
    (e ≤ now → validateSessionToken store sid tok now = .invalid "Token expired") := by
  have h0b : (s.is_active == 0) = false := by simp [hactive]
  have hm := hmatch
  unfold tokenMatches at hm
  rw [Bool.and_eq_true] at hm
  obtain ⟨h1, h2⟩ := hm
  have hcond : (!strTruthy s.current_token || s.current_token != some tok) = false := by
    simp [h1, bne, h2]
  refine ⟨fun hlt => ?_, fun hge => ?_⟩
  · simp [validateSessionToken, hfind, h0b, hcond, isTokenExpired, hexp,
      show ¬ e ≤ now by omega]
  · simp [validateSessionToken, hfind, h0b, hcond, isTokenExpired, hexp, hge]

/-- C3 witness: the concrete boundary — a matching token with expiry 30000 is
accepted at 29999 and rejected as expired at exactly 30000. -/
theorem c3_expiry_boundary_witness :
    validateSessionToken [sessActive] "s1" "tok123" 29999 = .valid sessActive ∧
    validateSessionToken [sessActive] "s1" "tok123" 30000 = .invalid "Token expired" :=
  ⟨(c3_expiry_boundary [sessActive] "s1" "tok123" 29999 30000 sessActive
      (by decide) (by decide) (by decide) (by decide)).1 (by decide),
   (c3_expiry_boundary [sessActive] "s1" "tok123" 30000 30000 sessActive
      (by decide) (by decide) (by decide) (by decide)).2 (by decide)⟩

/-- C5: `SessionService.endSession` on a session that is already ended (and
owned by the calling faculty) returns `success: false` with error
`'Session is already ended'` and leaves both the session table and the
rotation scheduler untouched. -/
theorem c5_end_already_ended (store : Store) (sched : SchedulerState)
    (sid fid : String) (now : Int) (s : SessionRec)
    (hfind : findById store sid = some s) (hfac : s.faculty_id = fid)
    (hended : s.is_active = 0) :
    serviceEndSession store sched sid fid now =
      ({ success := false, error := some "Session is already ended" }, store, sched) := by
  simp [serviceEndSession, hfind, hfac, hended]

/-- C5 witness: ending the concrete already-ended session fails with the
exact error and changes nothing. -/
theorem c5_end_already_ended_witness :
    serviceEndSession [sessEnded] schedOne "s2" "f1" 77 =
      ({ success := false, error := some "Session is already ended" },
       [sessEnded], schedOne) :=
  c5_end_already_ended [sessEnded] schedOne "s2" "f1" 77 sessEnded
    (by decide) (by decide) (by decide)

/-- C6: `startQRRotation` is idempotent-replace.  On a well-formed scheduler,
starting rotation for a session first cancels any timer previously registered
for it (its handle's timer is no longer live afterwards), registers exactly
one map entry for the session — the freshly allocated timer, which is live —
and preserves well-formedness (in particular the map never holds two entries
for one session). -/
theorem c6_start_replaces (st : SchedulerState) (sid : String) (now : Int) (i : Nat)
    (hwf : schedWF st) :
    (∀ hd, lookupTimer st sid = some hd →
      hd.timerId ∉ (startQRRotation st sid now i).live) ∧
    (startQRRotation st sid now i).timers.filter (fun p => p.1 == sid) =
      [(sid, { timerId := st.nextTimerId, startedAt := now, intervalMs := i })] ∧
    lookupTimer (startQRRotation st sid now i) sid =
      some { timerId := st.nextTimerId, startedAt := now, intervalMs := i } ∧
    st.nextTimerId ∈ (startQRRotation st sid now i).live ∧
    schedWF (startQRRotation st sid now i) := by
  refine ⟨?_, ?_, ?_, ?_, schedWF_start st sid now i hwf⟩
  · intro hd hlk hmem
    rw [start_live_eq] at hmem
    rcases List.mem_append.mp hmem with h1 | h1
    · rw [stop_some_eq st sid hd hlk] at h1
      exact hwf.2.2.2.not_mem_erase h1
    · have hlt := hwf.2.1 _ (lookupTimer_mem st sid hd hlk)
      simp only [nextTimerId_stop, List.mem_singleton] at h1
      rw [h1] at hlt
      exact lt_irrefl _ hlt
  · rw [start_timers_eq, List.filter_append, no_sid_filter_after_stop,
      nextTimerId_stop]
    simp [List.filter_cons]
  · unfold lookupTimer
    rw [start_timers_eq, List.find?_append, no_sid_key_after_stop, Option.none_or,
      nextTimerId_stop]
    simp [List.find?_cons]
  · rw [start_live_eq, nextTimerId_stop]
    exact List.mem_append.mpr (Or.inr (List.mem_singleton.mpr rfl))

/-- C6 witness: starting rotation for `"s1"` on the concrete one-timer
scheduler replaces the old timer (id 0 is cancelled) with the fresh live
timer id 1 as the session's only entry. -/
theorem c6_start_replaces_witness :
    (∀ hd, lookupTimer schedOne "s1" = some hd →
      hd.timerId ∉ (startQRRotation schedOne "s1" 40 30000).live) ∧
    (startQRRotation schedOne "s1" 40 30000).timers.filter (fun p => p.1 == "s1") =
      [("s1", { timerId := 1, startedAt := 40, intervalMs := 30000 })] ∧
    lookupTimer (startQRRotation schedOne "s1" 40 30000) "s1" =
      some { timerId := 1, startedAt := 40, intervalMs := 30000 } ∧
    1 ∈ (startQRRotation schedOne "s1" 40 30000).live ∧
    schedWF (startQRRotation schedOne "s1" 40 30000) :=
  c6_start_replaces schedOne "s1" 40 30000
    (by refine ⟨by decide, ?_, ?_, by decide⟩ <;> decide)

/-- C7: fail-stop.  When a rotation tick for a session fires and its
token-rotation callback fails (or the tick body throws), the scheduler stops
that session's timer and removes its handle; afterwards no rotation tick for
that session can ever fire again through any sequence of events that does not
contain an explicit restart of rotation for that session. -/
theorem c7_fail_stop (st : SchedulerState) (sid : String) (o : TickOutcome)
    (evs : List SchedEvent) (hwf : schedWF st) (hcan : canTickB st sid = true)
    (hfail : o = .rotateFailed ∨ o = .tickThrew)
    (hnostart : evs.all (notStartFor sid) = true) :
    lookupTimer (runTick st sid o) sid = none ∧
    canTickB (runTick st sid o) sid = false ∧
    canTickB (schedRun (runTick st sid o) evs) sid = false := by
  have hrt : runTick st sid o = (stopQRRotation st sid).2 := by
    unfold runTick
    rw [if_pos hcan]
    rcases hfail with rfl | rfl <;> rfl
  rw [hrt]
  have hnone := lookupTimer_stop_self st sid
  refine ⟨hnone, canTickB_lookup_none _ _ hnone, ?_⟩
  exact canTickB_false_run evs _ sid (schedWF_stop st sid hwf)
    (canTickB_lookup_none _ _ hnone) hnostart

/-- C7 witness: after a failing tick for `"s1"` on the concrete scheduler,
its handle is gone and no later tick can fire for it through a stop, a
foreign start and a foreign tick. -/
theorem c7_fail_stop_witness :
    lookupTimer (runTick schedOne "s1" .rotateFailed) "s1" = none ∧
    canTickB (runTick schedOne "s1" .rotateFailed) "s1" = false ∧
    canTickB (schedRun (runTick schedOne "s1" .rotateFailed)
      [.tick "s1" (.rotateOk true), .stop "s2", .start "s2" 90 30000,
       .tick "s2" .rotateFailed]) "s1" = false :=
  c7_fail_stop schedOne "s1" .rotateFailed
    [.tick "s1" (.rotateOk true), .stop "s2", .start "s2" 90 30000,
     .tick "s2" .rotateFailed]
    (by refine ⟨by decide, ?_, ?_, by decide⟩ <;> decide)
    (by decide) (Or.inl rfl) (by decide)

/-- C8: stopping rotation twice in a row never errors — both calls report
`success: true`; the first call's `wasActive` is exactly whether a timer was
registered for the session, and the second call's `wasActive` is `false`. -/
theorem c8_idempotent_stop (st : SchedulerState) (sid : String) :
    ((stopQRRotation st sid).1).success = true ∧
    ((stopQRRotation (stopQRRotation st sid).2 sid).1).success = true ∧
    ((stopQRRotation (stopQRRotation st sid).2 sid).1).wasActive = false ∧
    ((stopQRRotation st sid).1).wasActive = (lookupTimer st sid).isSome := by
  have h2 := stop_none_eq _ sid (lookupTimer_stop_self st sid)
  refine ⟨?_, ?_, ?_, ?_⟩
  · cases hlk : lookupTimer st sid with
    | none => rw [stop_none_eq st sid hlk]
    | some hd => rw [stop_some_eq st sid hd hlk]
  · rw [h2]
  · rw [h2]
  · cases hlk : lookupTimer st sid with
    | none => rw [stop_none_eq st sid hlk]; rfl
    | some hd => rw [stop_some_eq st sid hd hlk]; rfl

/-- C9: `validateAttendanceToken` flags a result as retryable exactly when its
error is `'Token expired'`; every other rejection reason (and every success)
carries `canRetry = false`. -/
theorem c9_canretry_only_expired (store : Store) (sid tok : String) (now : Int) :
    (validateAttendanceToken store sid tok now).canRetry =
      ((validateAttendanceToken store sid tok now).error == some "Token expired") := by
  unfold validateAttendanceToken
  cases validateSessionToken store sid tok now <;> rfl

/-- C10: an active session whose stored `current_token` is null — the state
`cleanupExpiredTokens` leaves an active expired session in — rejects every
presented token as `'Invalid token'` (never `'Token expired'`);
`isTokenExpired` holds of a null expiry; and cleanup indeed nulls the token
of any active session whose expiry has lapsed while keeping it active. -/
theorem c10_null_token (store : Store) (sid : String) (now : Int) (s : SessionRec)
    (hfind : findById store sid = some s) (hactive : s.is_active ≠ 0)
    (htok : s.current_token = none) :
    (∀ tok, validateSessionToken store sid tok now = .invalid "Invalid token") ∧
    isTokenExpired none now = true ∧
    (∀ s2 : SessionRec, ∀ e : Int, s2.is_active = 1 → s2.token_expiry = some e →
      e ≤ now → (cleanRec now s2).current_token = none ∧
        (cleanRec now s2).token_expiry = none ∧ (cleanRec now s2).is_active = 1) := by
  have h0b : (s.is_active == 0) = false := by simp [hactive]
  refine ⟨fun tok => ?_, rfl, fun s2 e hact2 hexp2 hle => ?_⟩
  · simp [validateSessionToken, hfind, h0b, htok, strTruthy]
  · simp [cleanRec, hexp2, hact2, hle]

/-- C10 witness: the concrete cleaned-up active session rejects any token as
invalid. -/
theorem c10_null_token_witness :
    (∀ tok, validateSessionToken [sessNullTok] "s5" tok 500 = .invalid "Invalid token") ∧
    isTokenExpired none 500 = true ∧
    (∀ s2 : SessionRec, ∀ e : Int, s2.is_active = 1 → s2.token_expiry = some e →
      e ≤ 500 → (cleanRec 500 s2).current_token = none ∧
        (cleanRec 500 s2).token_expiry = none ∧ (cleanRec 500 s2).is_active = 1) :=
  c10_null_token [sessNullTok] "s5" 500 sessNullTok (by decide) (by decide) (by decide)

end QTrack
